import Mathlib

/-!
Verification of the booking-conflict engine of a facility-reservation backend.

The source is a single FastAPI application.  Its core is the POST /reservations
handler `create_reservation`, which validates a candidate window, queries the
existing reservations of the target facility for overlaps, and inserts a new
reservation row on success.

Embedding choices:
* Naive Python datetimes compare lexicographically by components, which is the
  same order as total microseconds since an epoch; `DateTime` is therefore a
  `Nat` counting microseconds, and the `.minute` accessor extracts the minute
  component arithmetically.
* The database session is a list of persisted `Reservation` rows; the SELECT
  in the handler becomes a list filter, the INSERT plus COMMIT an append.
* Nondeterministic inputs of the handler are explicit parameters: the
  generated UUID, the results of the two separate datetime.now(timezone.utc)
  calls that populate created_at and updated_at, and a `storageOk` flag that
  stands for the absence of a storage-layer exception (SQLAlchemyError); when
  it is false the database operations raise, the session is rolled back and an
  HTTP 500 error is returned, exactly as in the except branch of the source.
-/

/-- Naive timestamp, counted in microseconds since an arbitrary epoch.
Comparison of naive Python datetimes agrees with comparison of these counts. -/
abbrev DateTime := Nat

/-- The `.minute` accessor of a Python datetime: the minute component of the
timestamp, obtained from the count of whole minutes modulo 60. -/
def DateTime.minute (t : DateTime) : Nat := t / 60000000 % 60

/-- Build a timestamp from hour, minute, second and microsecond components
(the day part is irrelevant to the claims and taken as the epoch day). -/
def mkTime (h m s us : Nat) : DateTime := ((h * 60 + m) * 60 + s) * 1000000 + us

/-- A persisted reservation row (table t_point0_facility_reservations). -/
structure Reservation where
  reservation_id : String
  company_id : String
  facility_id : String
  start_time : DateTime
  end_time : DateTime
  attendees : Int
  created_at : DateTime
  updated_at : DateTime
deriving DecidableEq

/-- The request body of POST /reservations.  In the source, `attendees` is a
plain `int` field with no positivity constraint. -/
structure ReservationCreateSchema where
  company_id : String
  facility_id : String
  start_time : DateTime
  end_time : DateTime
  attendees : Int
deriving DecidableEq

/-- The persisted state: the committed rows of the reservations table. -/
abbrev DB := List Reservation

/-- Outcome of one HTTP request: either a 200 response with the body of
ReservationResponseSchema, or an HTTPException with a status code. -/
inductive HttpResult where
  | ok (reservation_id : String) (message : String)
  | httpError (status : Nat) (detail : String)
deriving DecidableEq

/-- Rejection message for start_time >= end_time. -/
def msgStartNotBeforeEnd : String := "開始時間は終了時間より前である必要があります。"

/-- Rejection message for a window boundary not on the 5-minute grid. -/
def msgGranularity : String := "開始時間と終了時間は5分単位である必要があります。"

/-- Rejection message for an overlap with an existing reservation. -/
def msgOverlap : String := "予約が直前で被りました"

/-- Success message of the handler. -/
def successMessage : String := "Reservation successfully created."

/-- The overlap SELECT of the handler: the existing rows of the target
facility whose window strictly overlaps the candidate window. -/
def overlappingReservations (db : DB) (reservation_data : ReservationCreateSchema) :
    List Reservation :=
  db.filter (fun r =>
    decide (r.facility_id = reservation_data.facility_id) &&
    decide (r.start_time < reservation_data.end_time) &&
    decide (r.end_time > reservation_data.start_time))

/-- The row built for insertion: the request fields plus the generated id.
The source populates created_at and updated_at with two separate
datetime.now(timezone.utc) calls, so each field gets the result of its own
call; at microsecond precision the two values need not coincide. -/
def new_reservation (reservation_data : ReservationCreateSchema)
    (new_uuid : String) (created_now updated_now : DateTime) : Reservation :=
  { reservation_id := new_uuid
    company_id := reservation_data.company_id
    facility_id := reservation_data.facility_id
    start_time := reservation_data.start_time
    end_time := reservation_data.end_time
    attendees := reservation_data.attendees
    created_at := created_now
    updated_at := updated_now }

/-- The POST /reservations handler.  `new_uuid` is the value of
str(uuid.uuid4()), `now1` and `now2` the values of the first and second
datetime.now(timezone.utc) calls (assigned to created_at and updated_at
respectively), and `storageOk` records whether the storage layer raises during
the try block; the result is the HTTP outcome together with the committed
state of the session after the request. -/
def create_reservation (db : DB) (reservation_data : ReservationCreateSchema)
    (new_uuid : String) (now1 now2 : DateTime) (storageOk : Bool) : HttpResult × DB :=
  if reservation_data.start_time ≥ reservation_data.end_time then
    (HttpResult.ok "Error" msgStartNotBeforeEnd, db)
  else if DateTime.minute reservation_data.start_time % 5 ≠ 0 ∨
      DateTime.minute reservation_data.end_time % 5 ≠ 0 then
    (HttpResult.ok "Error" msgGranularity, db)
  else if storageOk then
    if overlappingReservations db reservation_data ≠ [] then
      (HttpResult.ok "Error" msgOverlap, db)
    else
      (HttpResult.ok new_uuid successMessage,
        db ++ [new_reservation reservation_data new_uuid now1 now2])
  else
    (HttpResult.httpError 500 "Database error", db)

/-- The no-overlap condition of the spec for two rows of one facility. -/
def noOverlap (r1 r2 : Reservation) : Prop :=
  r1.end_time ≤ r2.start_time ∨ r2.end_time ≤ r1.start_time

instance (r1 r2 : Reservation) : Decidable (noOverlap r1 r2) :=
  inferInstanceAs (Decidable (_ ∨ _))

/-- The core invariant: the persisted rows of each facility are pairwise
non-overlapping under the half-open-interval rule. -/
def pairwiseNonOverlapping (db : DB) : Prop :=
  ∀ r1 ∈ db, ∀ r2 ∈ db, r1 ≠ r2 → r1.facility_id = r2.facility_id → noOverlap r1 r2

instance (db : DB) : Decidable (pairwiseNonOverlapping db) :=
  inferInstanceAs (Decidable (∀ r1 ∈ db, ∀ r2 ∈ db,
    r1 ≠ r2 → r1.facility_id = r2.facility_id → noOverlap r1 r2))

/-- The read phase of one booking transaction against a committed snapshot:
true when the window validation passes and the overlap SELECT against the
snapshot returns no row, i.e. when the handler reaches the INSERT. -/
def passesChecks (db : DB) (rd : ReservationCreateSchema) : Bool :=
  decide (rd.start_time < rd.end_time) &&
  decide (DateTime.minute rd.start_time % 5 = 0) &&
  decide (DateTime.minute rd.end_time % 5 = 0) &&
  decide (overlappingReservations db rd = [])

/-- Modelled from the spec: the storage engine is not part of the source (the
spec treats it as an external transactional datastore), and the source wraps
the overlap SELECT and the INSERT in one session with default engine isolation
and no per-facility lock or SELECT FOR UPDATE.  Under such snapshot-style
isolation two concurrent booking transactions may both run their overlap
SELECT against the same committed snapshot before either INSERT commits; every
session whose checks pass then inserts its row and commits without conflict,
since the two rows have distinct primary keys.  The result is the pair of
commit decisions and the committed state after both sessions finish. -/
def concurrentPairOutcome (db : DB) (rd1 rd2 : ReservationCreateSchema)
    (id1 id2 : String) (now : DateTime) : (Bool × Bool) × DB :=
  let c1 := passesChecks db rd1
  let c2 := passesChecks db rd2
  ((c1, c2),
    (if c1 then db ++ [new_reservation rd1 id1 now now] else db) ++
      (if c2 then [new_reservation rd2 id2 now now] else []))

/-! Concrete inputs used by counterexamples and witnesses. -/

/-- A fixed current time used where the value of now is irrelevant. -/
def t0 : DateTime := mkTime 9 0 0 0

/-- One microsecond after t0: a possible result of a second
datetime.now(timezone.utc) call made right after one that returned t0. -/
def t1 : DateTime := mkTime 9 0 0 1

/-- Request for [10:00, 10:30) on facility F1. -/
def raceRd1 : ReservationCreateSchema :=
  { company_id := "C1", facility_id := "F1",
    start_time := mkTime 10 0 0 0, end_time := mkTime 10 30 0 0, attendees := 3 }

/-- Request for [10:15, 10:45) on facility F1, overlapping raceRd1. -/
def raceRd2 : ReservationCreateSchema :=
  { company_id := "C2", facility_id := "F1",
    start_time := mkTime 10 15 0 0, end_time := mkTime 10 45 0 0, attendees := 4 }

/-- A request with start_time = end_time (invalid ordering). -/
def rdBadOrder : ReservationCreateSchema :=
  { company_id := "C1", facility_id := "F1",
    start_time := mkTime 10 0 0 0, end_time := mkTime 10 0 0 0, attendees := 2 }

/-- A request whose start minute (7) is not a multiple of 5. -/
def rdBadMinute : ReservationCreateSchema :=
  { company_id := "C1", facility_id := "F1",
    start_time := mkTime 10 7 0 0, end_time := mkTime 10 30 0 0, attendees := 2 }

/-- A valid request for [10:00, 10:30) on F1 with attendees = 0. -/
def rdZeroAttendees : ReservationCreateSchema :=
  { company_id := "C1", facility_id := "F1",
    start_time := mkTime 10 0 0 0, end_time := mkTime 10 30 0 0, attendees := 0 }

/-- A request with 5-minute-aligned minutes but nonzero seconds:
[10:05:30, 10:20:30) on F1. -/
def rdSubMinute : ReservationCreateSchema :=
  { company_id := "C1", facility_id := "F1",
    start_time := mkTime 10 5 30 0, end_time := mkTime 10 20 30 0, attendees := 2 }

/-- Back-to-back request 1: [10:00, 10:30) on F1. -/
def rdBack1 : ReservationCreateSchema :=
  { company_id := "C1", facility_id := "F1",
    start_time := mkTime 10 0 0 0, end_time := mkTime 10 30 0 0, attendees := 2 }

/-- Back-to-back request 2: [10:30, 11:00) on F1, touching rdBack1. -/
def rdBack2 : ReservationCreateSchema :=
  { company_id := "C2", facility_id := "F1",
    start_time := mkTime 10 30 0 0, end_time := mkTime 11 0 0 0, attendees := 2 }

/-! Claim theorems. -/

/-- C3: a request with start_time >= end_time is rejected with the
start-not-before-end reason and the persisted state is unchanged. -/
theorem C3_ordering_rejected (db : DB) (rd : ReservationCreateSchema)
    (new_uuid : String) (now1 now2 : DateTime) (storageOk : Bool)
    (h : rd.start_time ≥ rd.end_time) :
    create_reservation db rd new_uuid now1 now2 storageOk =
      (HttpResult.ok "Error" msgStartNotBeforeEnd, db) := by
  unfold create_reservation
  rw [if_pos h]

/-- C3 witness: the equal-endpoints request is rejected with the ordering
reason and an empty table stays empty. -/
theorem C3_ordering_rejected_witness :
    create_reservation [] rdBadOrder "uuid-w" t0 t1 true =
      (HttpResult.ok "Error" msgStartNotBeforeEnd, []) :=
  C3_ordering_rejected [] rdBadOrder "uuid-w" t0 t1 true (by decide)

/-- C4: a request whose start or end minute is not a multiple of 5 is
rejected with a 200 Error response and the persisted state is unchanged,
whatever the current table contents and storage outcome. -/
theorem C4_granularity_rejected (db : DB) (rd : ReservationCreateSchema)
    (new_uuid : String) (now1 now2 : DateTime) (storageOk : Bool)
    (h : DateTime.minute rd.start_time % 5 ≠ 0 ∨ DateTime.minute rd.end_time % 5 ≠ 0) :
    (∃ msg, (create_reservation db rd new_uuid now1 now2 storageOk).1 =
      HttpResult.ok "Error" msg) ∧
      (create_reservation db rd new_uuid now1 now2 storageOk).2 = db := by
  unfold create_reservation
  by_cases hord : rd.start_time ≥ rd.end_time
  · rw [if_pos hord]
    exact ⟨⟨msgStartNotBeforeEnd, rfl⟩, rfl⟩
  · rw [if_neg hord, if_pos h]
    exact ⟨⟨msgGranularity, rfl⟩, rfl⟩

/-- C4 witness: the 10:07 request is rejected and an overlapping table with a
row on the same facility is left unchanged. -/
theorem C4_granularity_rejected_witness :
    (∃ msg, (create_reservation [new_reservation raceRd1 "uuid-1" t0 t0] rdBadMinute
        "uuid-w" t0 t1 true).1 = HttpResult.ok "Error" msg) ∧
      (create_reservation [new_reservation raceRd1 "uuid-1" t0 t0] rdBadMinute
        "uuid-w" t0 t1 true).2 = [new_reservation raceRd1 "uuid-1" t0 t0] :=
  C4_granularity_rejected [new_reservation raceRd1 "uuid-1" t0 t0] rdBadMinute
    "uuid-w" t0 t1 true (by decide)

/-- C5: the overlap SELECT returns exactly the rows of the target facility
that strictly overlap the candidate window, so touching endpoints and rows of
other facilities are never a conflict; consequently back-to-back bookings
[10:00,10:30) then [10:30,11:00) on one facility both succeed. -/
theorem C5_overlap_characterization :
    (∀ (db : DB) (rd : ReservationCreateSchema) (r : Reservation),
        r ∈ overlappingReservations db rd ↔
          r ∈ db ∧ r.facility_id = rd.facility_id ∧
            r.start_time < rd.end_time ∧ rd.start_time < r.end_time) ∧
    (create_reservation [] rdBack1 "uuid-1" t0 t0 true =
        (HttpResult.ok "uuid-1" successMessage, [new_reservation rdBack1 "uuid-1" t0 t0]) ∧
      create_reservation [new_reservation rdBack1 "uuid-1" t0 t0] rdBack2 "uuid-2" t0 t0 true =
        (HttpResult.ok "uuid-2" successMessage,
          [new_reservation rdBack1 "uuid-1" t0 t0, new_reservation rdBack2 "uuid-2" t0 t0])) := by
  refine ⟨fun db rd r => ?_, by decide, by decide⟩
  simp [overlappingReservations, List.mem_filter, and_assoc]

/-- C6 counterexample: created_at and updated_at come from two separate
datetime.now(timezone.utc) calls in the source; when the second call returns
one microsecond after the first, the committed row has created_at different
from updated_at, so the conjunct created_at = updated_at = the current UTC
time of the claim fails at this concrete input. -/
theorem C6_two_now_calls_can_differ :
    create_reservation [] raceRd1 "uuid-1" t0 t1 true =
      (HttpResult.ok "uuid-1" successMessage, [new_reservation raceRd1 "uuid-1" t0 t1]) ∧
    (new_reservation raceRd1 "uuid-1" t0 t1).created_at ≠
      (new_reservation raceRd1 "uuid-1" t0 t1).updated_at := by
  decide

/-- C6 amended: a request that passes validation and the overlap check is
committed as exactly one appended row carrying the request fields, with the
generated id returned in the response, created_at set by the first
datetime.now(timezone.utc) call and updated_at by the second (the two values
need not coincide at microsecond precision), and id uniqueness preserved when
the generated id is fresh. -/
theorem C6_success_persists_record (db : DB) (rd : ReservationCreateSchema)
    (new_uuid : String) (now1 now2 : DateTime)
    (h1 : rd.start_time < rd.end_time)
    (h2 : DateTime.minute rd.start_time % 5 = 0)
    (h3 : DateTime.minute rd.end_time % 5 = 0)
    (h4 : overlappingReservations db rd = [])
    (h5 : new_uuid ∉ db.map Reservation.reservation_id)
    (h6 : (db.map Reservation.reservation_id).Nodup) :
    create_reservation db rd new_uuid now1 now2 true =
      (HttpResult.ok new_uuid successMessage, db ++ [new_reservation rd new_uuid now1 now2]) ∧
    (new_reservation rd new_uuid now1 now2).company_id = rd.company_id ∧
    (new_reservation rd new_uuid now1 now2).facility_id = rd.facility_id ∧
    (new_reservation rd new_uuid now1 now2).start_time = rd.start_time ∧
    (new_reservation rd new_uuid now1 now2).end_time = rd.end_time ∧
    (new_reservation rd new_uuid now1 now2).attendees = rd.attendees ∧
    (new_reservation rd new_uuid now1 now2).created_at = now1 ∧
    (new_reservation rd new_uuid now1 now2).updated_at = now2 ∧
    ((db ++ [new_reservation rd new_uuid now1 now2]).map Reservation.reservation_id).Nodup := by
  have hord : ¬ rd.start_time ≥ rd.end_time := not_le.mpr h1
  have hgran : ¬ (DateTime.minute rd.start_time % 5 ≠ 0 ∨
      DateTime.minute rd.end_time % 5 ≠ 0) := by
    simp [h2, h3]
  refine ⟨?_, rfl, rfl, rfl, rfl, rfl, rfl, rfl, ?_⟩
  · unfold create_reservation
    rw [if_neg hord, if_neg hgran, if_pos rfl, if_neg (by simp [h4])]
  · have hmap : (db ++ [new_reservation rd new_uuid now1 now2]).map Reservation.reservation_id
        = db.map Reservation.reservation_id ++ [new_uuid] := by
      simp [new_reservation]
    rw [hmap]
    simp [List.nodup_append, h5, h6]

/-- C6 witness: committing [10:00,10:30) on an empty table, with the two now
calls returning t0 and t1, persists exactly the one expected row. -/
theorem C6_success_persists_record_witness :
    create_reservation [] raceRd1 "uuid-1" t0 t1 true =
      (HttpResult.ok "uuid-1" successMessage, [] ++ [new_reservation raceRd1 "uuid-1" t0 t1]) ∧
    (new_reservation raceRd1 "uuid-1" t0 t1).company_id = raceRd1.company_id ∧
    (new_reservation raceRd1 "uuid-1" t0 t1).facility_id = raceRd1.facility_id ∧
    (new_reservation raceRd1 "uuid-1" t0 t1).start_time = raceRd1.start_time ∧
    (new_reservation raceRd1 "uuid-1" t0 t1).end_time = raceRd1.end_time ∧
    (new_reservation raceRd1 "uuid-1" t0 t1).attendees = raceRd1.attendees ∧
    (new_reservation raceRd1 "uuid-1" t0 t1).created_at = t0 ∧
    (new_reservation raceRd1 "uuid-1" t0 t1).updated_at = t1 ∧
    (([] ++ [new_reservation raceRd1 "uuid-1" t0 t1]).map Reservation.reservation_id).Nodup :=
  C6_success_persists_record [] raceRd1 "uuid-1" t0 t1 (by decide) (by decide) (by decide)
    (by decide) (by decide) (by decide)

/-- C7: every outcome other than the success response leaves the persisted
state unchanged: validation and conflict rejections return before any write,
and a storage failure is rolled back before the 500 error is surfaced. -/
theorem C7_failure_leaves_state_unchanged (db : DB) (rd : ReservationCreateSchema)
    (new_uuid : String) (now1 now2 : DateTime) (storageOk : Bool)
    (h : (create_reservation db rd new_uuid now1 now2 storageOk).1 ≠
      HttpResult.ok new_uuid successMessage) :
    (create_reservation db rd new_uuid now1 now2 storageOk).2 = db := by
  by_cases h1 : rd.start_time ≥ rd.end_time
  · simp [create_reservation, h1]
  by_cases h2 : DateTime.minute rd.start_time % 5 ≠ 0 ∨ DateTime.minute rd.end_time % 5 ≠ 0
  · simp [create_reservation, h1, h2]
  cases storageOk with
  | false => simp [create_reservation, h1, h2]
  | true =>
    by_cases h3 : overlappingReservations db rd ≠ []
    · simp [create_reservation, h1, h2, h3]
    · exact absurd (by simp [create_reservation, h1, h2, h3]) h

/-- C7 witness: a granularity rejection leaves an empty table empty. -/
theorem C7_failure_leaves_state_unchanged_witness :
    (create_reservation [] rdBadMinute "uuid-w" t0 t1 true).2 = [] :=
  C7_failure_leaves_state_unchanged [] rdBadMinute "uuid-w" t0 t1 true (by decide)

/-- C8: every business-rule rejection (ordering, granularity, or overlap when
storage is healthy) yields a 200 success-shaped response whose reservation_id
is the sentinel Error string with a reason message, and an HTTP 500 error
arises only from a storage failure (and only with status 500). -/
theorem C8_business_rejection_is_200_error (db : DB) (rd : ReservationCreateSchema)
    (new_uuid : String) (now1 now2 : DateTime) (storageOk : Bool) :
    ((rd.start_time ≥ rd.end_time ∨
        DateTime.minute rd.start_time % 5 ≠ 0 ∨ DateTime.minute rd.end_time % 5 ≠ 0 ∨
        (storageOk = true ∧ overlappingReservations db rd ≠ [])) →
      ∃ msg, (create_reservation db rd new_uuid now1 now2 storageOk).1 =
        HttpResult.ok "Error" msg) ∧
    (∀ st d, (create_reservation db rd new_uuid now1 now2 storageOk).1 =
        HttpResult.httpError st d → storageOk = false ∧ st = 500) := by
  by_cases h1 : rd.start_time ≥ rd.end_time
  · refine ⟨fun _ => ⟨msgStartNotBeforeEnd, by simp [create_reservation, h1]⟩, ?_⟩
    intro st d hst
    simp [create_reservation, h1] at hst
  by_cases h2 : DateTime.minute rd.start_time % 5 ≠ 0 ∨ DateTime.minute rd.end_time % 5 ≠ 0
  · refine ⟨fun _ => ⟨msgGranularity, by simp [create_reservation, h1, h2]⟩, ?_⟩
    intro st d hst
    simp [create_reservation, h1, h2] at hst
  cases storageOk with
  | false =>
    refine ⟨?_, ?_⟩
    · rintro (h | h | h | ⟨hok, _⟩)
      · exact absurd h h1
      · exact absurd (Or.inl h) h2
      · exact absurd (Or.inr h) h2
      · exact absurd hok (by decide)
    · intro st d hst
      simp [create_reservation, h1, h2] at hst
      exact ⟨rfl, hst.1.symm⟩
  | true =>
    by_cases h3 : overlappingReservations db rd ≠ []
    · refine ⟨fun _ => ⟨msgOverlap, by simp [create_reservation, h1, h2, h3]⟩, ?_⟩
      intro st d hst
      simp [create_reservation, h1, h2, h3] at hst
    · refine ⟨?_, ?_⟩
      · rintro (h | h | h | ⟨_, hov⟩)
        · exact absurd h h1
        · exact absurd (Or.inl h) h2
        · exact absurd (Or.inr h) h2
        · exact absurd hov h3
      · intro st d hst
        simp [create_reservation, h1, h2, h3] at hst

/-- C8 witness: the equal-endpoints request gets a 200 Error response even
while the storage layer is failing. -/
theorem C8_business_rejection_is_200_error_witness :
    ∃ msg, (create_reservation [] rdBadOrder "uuid-w" t0 t1 false).1 =
      HttpResult.ok "Error" msg :=
  (C8_business_rejection_is_200_error [] rdBadOrder "uuid-w" t0 t1 false).1
    (Or.inl (by decide))

/-- C9 counterexample: a request with attendees = 0 that passes window
validation on an empty table is committed, so the persisted set contains a
reservation whose attendees value is not positive. -/
theorem C9_nonpositive_attendees_persisted :
    ¬ (∀ r ∈ (create_reservation [] rdZeroAttendees "uuid-z" t0 t0 true).2,
        0 < r.attendees) := by
  decide

/-- C9 amended: the booking transaction applies no check to attendees; every
row it persists is either a pre-existing row or carries the attendees value of
the request unchanged, whatever its sign. -/
theorem C9_attendees_persisted_unchecked (db : DB) (rd : ReservationCreateSchema)
    (new_uuid : String) (now1 now2 : DateTime) (storageOk : Bool) (r : Reservation)
    (hr : r ∈ (create_reservation db rd new_uuid now1 now2 storageOk).2) :
    r ∈ db ∨ r.attendees = rd.attendees := by
  by_cases h1 : rd.start_time ≥ rd.end_time
  · simp [create_reservation, h1] at hr
    exact Or.inl hr
  by_cases h2 : DateTime.minute rd.start_time % 5 ≠ 0 ∨ DateTime.minute rd.end_time % 5 ≠ 0
  · simp [create_reservation, h1, h2] at hr
    exact Or.inl hr
  cases storageOk with
  | false =>
    simp [create_reservation, h1, h2] at hr
    exact Or.inl hr
  | true =>
    by_cases h3 : overlappingReservations db rd ≠ []
    · simp [create_reservation, h1, h2, h3] at hr
      exact Or.inl hr
    · simp [create_reservation, h1, h2, h3] at hr
      rcases hr with hr | hr
      · exact Or.inl hr
      · exact Or.inr (by rw [hr]; rfl)

/-- C9 amended witness: the committed zero-attendees row carries the request
value 0. -/
theorem C9_attendees_persisted_unchecked_witness :
    new_reservation rdZeroAttendees "uuid-z" t0 t0 ∈ ([] : DB) ∨
      (new_reservation rdZeroAttendees "uuid-z" t0 t0).attendees =
        rdZeroAttendees.attendees :=
  C9_attendees_persisted_unchecked [] rdZeroAttendees "uuid-z" t0 t0 true
    (new_reservation rdZeroAttendees "uuid-z" t0 t0) (by decide)

/-- C10: the granularity validation reads only the minute component of each
timestamp — the minute accessor ignores seconds and microseconds — so the
request [10:05:30, 10:20:30), whose boundaries are off the 5-minute grid but
whose minutes are multiples of 5, passes validation and is committed. -/
theorem C10_granularity_checks_only_minutes :
    (∀ h m s us : Nat, m < 60 → s < 60 → us < 1000000 →
        DateTime.minute (mkTime h m s us) = m) ∧
    create_reservation [] rdSubMinute "uuid-s" t0 t0 true =
      (HttpResult.ok "uuid-s" successMessage,
        [] ++ [new_reservation rdSubMinute "uuid-s" t0 t0]) := by
  refine ⟨fun h m s us hm hs hus => ?_, by decide⟩
  unfold DateTime.minute mkTime
  omega

/-- C10 witness: the minute accessor at 10:05:30.000123 returns 5. -/
theorem C10_granularity_checks_only_minutes_witness :
    DateTime.minute (mkTime 10 5 30 123) = 5 :=
  C10_granularity_checks_only_minutes.1 10 5 30 123 (by decide) (by decide) (by decide)

/-- C1: two concurrent transactions for the overlapping windows [10:00,10:30)
and [10:15,10:45) on facility F1, each checking overlaps against the same
committed snapshot as the source does under its default isolation, both
commit, and the resulting persisted set violates the pairwise non-overlap
invariant — the code does not guarantee the invariant under concurrent
commits. -/
theorem C1_concurrent_commits_break_invariant :
    (concurrentPairOutcome [] raceRd1 raceRd2 "uuid-1" "uuid-2" t0).1 = (true, true) ∧
    ¬ pairwiseNonOverlapping
        (concurrentPairOutcome [] raceRd1 raceRd2 "uuid-1" "uuid-2" t0).2 := by
  decide

/-- C2: in the same snapshot-interleaved execution of the two mutually
overlapping requests on facility F1, both transactions commit and the
persisted set gains two rows for that window pair — not at most one. -/
theorem C2_concurrent_pair_both_commit :
    (concurrentPairOutcome [] raceRd1 raceRd2 "uuid-3" "uuid-4" t0).1.1 = true ∧
    (concurrentPairOutcome [] raceRd1 raceRd2 "uuid-3" "uuid-4" t0).1.2 = true ∧
    ((concurrentPairOutcome [] raceRd1 raceRd2 "uuid-3" "uuid-4" t0).2.filter
        (fun r => r.facility_id == "F1")).length = 2 := by
  decide
